import Mathlib

/-!
Verification of the job-submission pipeline of the `pathon-front` repository.

The embedded code is:
  * `pages/api/submit.ts` — the submission endpoint: method guard, truthiness
    validation of the request body, a Supabase insert into the `jobs` table,
    then an SQS `SendMessageCommand` publish, with the error handling of each
    step;
  * `pages/api/jobs.ts` — the listing endpoint: method guard, a Supabase
    `select('*').order('created_at', { ascending: false })` query, error and
    exception handling.

External collaborators (the Supabase store, the SQS queue, `uuidv4`, the
clock) are modelled as explicit state threaded through the handlers, with
Boolean fault flags standing for the success or failure of each external
call.  Every external call the handler makes is also recorded in an ordered
trace of `Effect`s so that call ordering and call counts can be stated.
-/

set_option maxHeartbeats 1000000

namespace Hproj

/-- A JavaScript value as it can occur in a parsed JSON request body.
Numbers are modelled as rationals (the handlers never do arithmetic on
them, they only test truthiness and pass them through); `nan` is kept as a
separate constructor since `NaN` is falsy and not JSON-serialisable. -/
inductive JSValue where
  | undef
  | null
  | nan
  | bool (b : Bool)
  | num (q : Rat)
  | str (s : String)
deriving DecidableEq

/-- JavaScript truthiness, as used by `if (!jobName || !modelType || !trainingSteps)`
in `submit.ts`: `undefined`, `null`, `NaN`, `false`, `0` and `""` are falsy. -/
def JSValue.truthy : JSValue → Bool
  | .undef => false
  | .null => false
  | .nan => false
  | .bool b => b
  | .num q => if q = 0 then false else true
  | .str s => if s = "" then false else true

/-- The body of a request to the submission endpoint, after JSON parsing:
`const { jobName, modelType, trainingSteps, learningRate, description } = req.body`. -/
structure SubmitRequest where
  method : String
  jobName : JSValue
  modelType : JSValue
  trainingSteps : JSValue
  learningRate : JSValue
  description : JSValue
deriving DecidableEq

/-- The row inserted into the Supabase `jobs` table by `submit.ts`.
The `created_at` field is not part of the insert payload in `submit.ts`;
modelled from the spec: the Job Record Store sets `created_at` at creation
(spec section 3), here taken from the environment clock at insert time. -/
structure JobRow where
  id : Nat
  name : JSValue
  model_type : JSValue
  training_steps : JSValue
  learning_rate : JSValue
  description : JSValue
  status : String
  created_at : Nat
deriving DecidableEq

/-- The SQS message payload built in `submit.ts`
(`const payload = { jobId, jobName, modelType, trainingSteps, learningRate, description }`). -/
structure QueueEvent where
  jobId : Nat
  jobName : JSValue
  modelType : JSValue
  trainingSteps : JSValue
  learningRate : JSValue
  description : JSValue
deriving DecidableEq

/-- The Supabase `jobs` table: rows in insertion order. -/
structure Store where
  jobs : List JobRow
deriving DecidableEq

/-- The SQS queue: successfully delivered messages in publish order. -/
structure Queue where
  messages : List QueueEvent
deriving DecidableEq

/-- The environment of one handler invocation: the `uuidv4` supply (fresh
ids modelled as a counter), the clock the store stamps `created_at` with,
and fault flags fixing whether the Supabase insert and the SQS send
succeed. -/
structure Env where
  nextId : Nat
  now : Nat
  insertOk : Bool
  publishOk : Bool
deriving DecidableEq

/-- One external call made by a handler, in order, with its outcome.
`updateStatus` and `storeDelete` are the remaining operations of the store
interface (spec section 4.5); they appear here only so that theorems can
state that the submission handler never performs them. -/
inductive Effect where
  | storeInsert (r : JobRow) (ok : Bool)
  | sqsSend (e : QueueEvent) (ok : Bool)
  | updateStatus (id : Nat) (newStatus : String) (ok : Bool)
  | storeDelete (id : Nat) (ok : Bool)
deriving DecidableEq

/-- The JSON response of the submission endpoint, with its HTTP status. -/
structure ApiResponse where
  status : Nat
  error : Option String
  message : Option String
  jobId : Option Nat
deriving DecidableEq

/-- Everything one call of the submission handler produces: the response,
the final store and queue states, the advanced environment, and the trace
of external calls it made. -/
structure SubmitOutcome where
  resp : ApiResponse
  store : Store
  queue : Queue
  env : Env
  trace : List Effect
deriving DecidableEq

/-- The row `submit.ts` inserts: `{ id: jobId, name: jobName, model_type: modelType,
training_steps: trainingSteps, learning_rate: learningRate, description, status: 'queued' }`,
with `created_at` stamped by the store from the clock. -/
def newRow (env : Env) (req : SubmitRequest) : JobRow :=
  { id := env.nextId
    name := req.jobName
    model_type := req.modelType
    training_steps := req.trainingSteps
    learning_rate := req.learningRate
    description := req.description
    status := "queued"
    created_at := env.now }

/-- The SQS payload `submit.ts` builds from the same fields and the same id. -/
def newEvent (env : Env) (req : SubmitRequest) : QueueEvent :=
  { jobId := env.nextId
    jobName := req.jobName
    modelType := req.modelType
    trainingSteps := req.trainingSteps
    learningRate := req.learningRate
    description := req.description }

/-- The handler of `pages/api/submit.ts`, translated branch for branch:
405 on non-POST; 400 `Missing required fields` when `!jobName || !modelType
|| !trainingSteps`; then `uuidv4()`, the Supabase insert (500 `Failed to
submit job` on error), then the SQS send (500 `Failed to queue job` on a
thrown error, 200 with the `jobId` on success). -/
def submitHandler (env : Env) (req : SubmitRequest) (st : Store) (q : Queue) :
    SubmitOutcome :=
  if req.method ≠ "POST" then
    { resp := { status := 405, error := some "Method not allowed", message := none, jobId := none }
      store := st, queue := q, env := env, trace := [] }
  else if !req.jobName.truthy || !req.modelType.truthy || !req.trainingSteps.truthy then
    { resp := { status := 400, error := some "Missing required fields", message := none, jobId := none }
      store := st, queue := q, env := env, trace := [] }
  else
    let jobId := env.nextId
    let row := newRow env req
    let env' : Env := { env with nextId := env.nextId + 1, now := env.now + 1 }
    if env.insertOk then
      let st' : Store := { jobs := st.jobs ++ [row] }
      let ev := newEvent env req
      if env.publishOk then
        { resp := { status := 200, error := none,
                    message := some "Job submitted to queue successfully", jobId := some jobId }
          store := st', queue := { messages := q.messages ++ [ev] }, env := env'
          trace := [.storeInsert row true, .sqsSend ev true] }
      else
        { resp := { status := 500, error := some "Failed to queue job", message := none, jobId := none }
          store := st', queue := q, env := env'
          trace := [.storeInsert row true, .sqsSend ev false] }
    else
      { resp := { status := 500, error := some "Failed to submit job", message := none, jobId := none }
        store := st, queue := q, env := env'
        trace := [.storeInsert row false] }

/-- The JSON response of the listing endpoint. -/
structure JobsResponse where
  status : Nat
  error : Option String
  data : Option (List JobRow)
deriving DecidableEq

/-- The comparator of the listing query: `a` may come before `b` when
`a.created_at` is at least `b.created_at` (descending order). -/
def rowLE (a b : JobRow) : Bool :=
  decide (b.created_at ≤ a.created_at)

/-- Modelled from the spec: the Job Record Store's list capability, which
`jobs.ts` invokes as `.select('*').order('created_at', { ascending: false })`.
The store returns all rows ordered by `created_at` descending; ties are
broken by insertion order if timestamps coincide (spec section 4.2), hence
a stable sort of the insertion sequence. -/
def listJobs (st : Store) : List JobRow :=
  st.jobs.mergeSort rowLE

/-- The handler of `pages/api/jobs.ts`, translated branch for branch: 405 on
non-GET; inside the `try`, the Supabase query either throws (caught as 500
`Internal server error`), returns an error (500 `Failed to fetch jobs`), or
returns the ordered rows (200). -/
def jobsHandler (method : String) (st : Store) (fetchError : Bool)
    (fetchThrows : Bool) : JobsResponse :=
  if method ≠ "GET" then
    { status := 405, error := some "Method not allowed", data := none }
  else if fetchThrows then
    { status := 500, error := some "Internal server error", data := none }
  else if fetchError then
    { status := 500, error := some "Failed to fetch jobs", data := none }
  else
    { status := 200, error := none, data := some (listJobs st) }

/-- Digit string to number, helper for the JS numeric-coercion model. -/
def digitsVal (cs : List Char) : Nat :=
  cs.foldl (fun n c => 10 * n + (c.toNat - 48)) 0

/-- JavaScript whitespace, as trimmed by `Number()` coercion. -/
def jsSpace (c : Char) : Bool :=
  c = ' ' || c = '\t' || c = '\n' || c = '\r'

/-- Trims leading and trailing whitespace from a character list. -/
def jsTrim (cs : List Char) : List Char :=
  ((cs.dropWhile jsSpace).reverse.dropWhile jsSpace).reverse

/-- Modelled from the spec: JavaScript `Number()` string coercion, the
coercion the spec requires to fail closed (spec section 3: reject
non-numeric).  A trimmed-empty string coerces to `0`; an optionally signed
decimal string (integer part, optional fractional part) coerces to that
number; anything else is `NaN`, returned as `none`.  (Exponent and
non-decimal literal forms are not modelled; they do not occur in the
claims.) -/
def strToNumber (s : String) : Option Rat :=
  let t := jsTrim s.toList
  if t = [] then some 0
  else
    let (sign, rest) : Rat × List Char :=
      match t with
      | '-' :: cs => (-1, cs)
      | '+' :: cs => (1, cs)
      | cs => (1, cs)
    let (ip, rest2) := rest.span (fun c => c ≠ '.')
    match rest2 with
    | [] =>
      if ip ≠ [] && ip.all Char.isDigit then
        some (sign * (digitsVal ip : Rat))
      else none
    | _ :: fp =>
      if (ip ≠ [] || fp ≠ []) && ip.all Char.isDigit && fp.all Char.isDigit then
        some (sign * ((digitsVal ip : Rat) + (digitsVal fp : Rat) / (10 : Rat) ^ fp.length))
      else none

/-- Modelled from the spec: JavaScript `Number()` coercion on a JSON value;
`none` stands for `NaN`. -/
def jsToNumber : JSValue → Option Rat
  | .undef => none
  | .null => some 0
  | .nan => none
  | .bool b => some (if b then 1 else 0)
  | .num q => some q
  | .str s => strToNumber s

/-- A JSON value is coercible to a number when `Number()` on it is not `NaN`. -/
def coercibleToNumber (v : JSValue) : Bool :=
  (jsToNumber v).isSome

/-- Counts the SQS publish attempts in a trace (successful or not). -/
def publishCount (tr : List Effect) : Nat :=
  tr.countP fun e =>
    match e with
    | .sqsSend _ _ => true
    | _ => false

/-- Counts the `update_status` calls in a trace. -/
def updateStatusCount (tr : List Effect) : Nat :=
  tr.countP fun e =>
    match e with
    | .updateStatus _ _ _ => true
    | _ => false

/-- Counts the store-delete calls in a trace. -/
def deleteCount (tr : List Effect) : Nat :=
  tr.countP fun e =>
    match e with
    | .storeDelete _ _ => true
    | _ => false

/-- Scans a trace and checks that every SQS publish attempt comes strictly
after some store insert that was acknowledged as successful; the
accumulator records whether a successful insert has been seen. -/
def publishAfterAckedInsert (seenOk : Bool) : List Effect → Bool
  | [] => true
  | .storeInsert _ ok :: rest => publishAfterAckedInsert (seenOk || ok) rest
  | .sqsSend _ _ :: rest => seenOk && publishAfterAckedInsert seenOk rest
  | .updateStatus _ _ _ :: rest => publishAfterAckedInsert seenOk rest
  | .storeDelete _ _ :: rest => publishAfterAckedInsert seenOk rest

/-- A concrete well-formed submission request, used by the witnesses. -/
def okReq : SubmitRequest :=
  { method := "POST", jobName := .str "cartpole", modelType := .str "ppo"
    trainingSteps := .num 1000, learningRate := .num (3 / 1000), description := .str "demo" }

/-- A concrete request whose `trainingSteps` is a truthy string that does not
coerce to a number. -/
def badStepsReq : SubmitRequest :=
  { method := "POST", jobName := .str "cartpole", modelType := .str "ppo"
    trainingSteps := .str "abc", learningRate := .num 1, description := .str "" }

/-- A concrete request with `trainingSteps` equal to the number `0`. -/
def zeroStepsReq : SubmitRequest :=
  { method := "POST", jobName := .str "cartpole", modelType := .str "ppo"
    trainingSteps := .num 0, learningRate := .num 1, description := .str "" }

/-- A concrete empty store. -/
def emptyStore : Store := { jobs := [] }

/-- A concrete empty queue. -/
def emptyQueue : Queue := { messages := [] }

/-- A concrete environment in which both external calls succeed. -/
def envOkOk : Env := { nextId := 7, now := 3, insertOk := true, publishOk := true }

/-- A concrete environment in which the insert succeeds and the publish fails. -/
def envOkFail : Env := { nextId := 7, now := 3, insertOk := true, publishOk := false }

/-- A concrete environment in which the insert fails. -/
def envFailOk : Env := { nextId := 7, now := 3, insertOk := false, publishOk := true }

/-- Claim C1: when the store insert succeeds and the queue publish fails, the
handler answers 500 with the queue error message (distinct from the
persistence error message), the persisted row is still in the store with
status `queued`, and no compensating delete is attempted. -/
theorem C1_publish_failure_keeps_record
    (env : Env) (req : SubmitRequest) (st : Store) (q : Queue)
    (hm : req.method = "POST")
    (h1 : req.jobName.truthy = true) (h2 : req.modelType.truthy = true)
    (h3 : req.trainingSteps.truthy = true)
    (hins : env.insertOk = true) (hpub : env.publishOk = false) :
    (submitHandler env req st q).resp.status = 500 ∧
    (submitHandler env req st q).resp.error = some "Failed to queue job" ∧
    (submitHandler env req st q).resp.error ≠ some "Failed to submit job" ∧
    (submitHandler env req st q).store.jobs = st.jobs ++ [newRow env req] ∧
    (newRow env req).status = "queued" ∧
    deleteCount (submitHandler env req st q).trace = 0 := by
  simp [submitHandler, hm, h1, h2, h3, hins, hpub, newRow, deleteCount, List.countP,
    List.countP.go]

/-- Claim C1 witness: the theorem applied at a concrete request, store and
fault pattern. -/
theorem C1_publish_failure_keeps_record_witness :
    (okReq.method = "POST" ∧ okReq.jobName.truthy = true ∧
     okReq.modelType.truthy = true ∧ okReq.trainingSteps.truthy = true ∧
     envOkFail.insertOk = true ∧ envOkFail.publishOk = false) ∧
    (submitHandler envOkFail okReq emptyStore emptyQueue).resp.status = 500 :=
  ⟨by decide,
   (C1_publish_failure_keeps_record envOkFail okReq emptyStore emptyQueue
      rfl (by decide) (by decide) (by decide) rfl rfl).1⟩

/-- Claim C2, counterexample: `badStepsReq` has a `trainingSteps` value that
is not coercible to a number (`Number("abc")` is `NaN`), yet the handler does
not answer 400: it persists the row and publishes the event, refuting the
claim that every such request fails validation before any persistence
attempt. -/
theorem C2_counterexample_nonnumeric_steps_reach_store :
    coercibleToNumber badStepsReq.trainingSteps = false ∧
    (submitHandler envOkOk badStepsReq emptyStore emptyQueue).resp.status = 200 ∧
    (submitHandler envOkOk badStepsReq emptyStore emptyQueue).store.jobs =
      [newRow envOkOk badStepsReq] ∧
    publishCount (submitHandler envOkOk badStepsReq emptyStore emptyQueue).trace = 1 := by
  refine ⟨by decide, ?_, ?_, ?_⟩ <;>
    simp [submitHandler, envOkOk, badStepsReq, emptyStore, emptyQueue, JSValue.truthy,
      newRow, publishCount, List.countP, List.countP.go]

/-- Claim C2, amended: when the name is falsy (missing, null, or empty) or
the `trainingSteps` value is falsy (missing, null, `NaN`, or the number 0),
the handler answers 400 `Missing required fields` before any persistence
attempt and with zero side effects on the store and queue. -/
theorem C2_falsy_required_fields_reject_before_side_effects
    (env : Env) (req : SubmitRequest) (st : Store) (q : Queue)
    (hm : req.method = "POST")
    (hfalsy : req.jobName.truthy = false ∨ req.trainingSteps.truthy = false) :
    (submitHandler env req st q).resp.status = 400 ∧
    (submitHandler env req st q).resp.error = some "Missing required fields" ∧
    (submitHandler env req st q).store = st ∧
    (submitHandler env req st q).queue = q ∧
    (submitHandler env req st q).trace = [] := by
  rcases hfalsy with h | h <;> simp [submitHandler, hm, h]

/-- Claim C2 witness: the amended theorem applied at a concrete request with
a missing (undefined) name. -/
theorem C2_falsy_required_fields_witness :
    (({ okReq with jobName := .undef } : SubmitRequest).method = "POST" ∧
     ({ okReq with jobName := .undef } : SubmitRequest).jobName.truthy = false) ∧
    (submitHandler envOkOk { okReq with jobName := .undef } emptyStore emptyQueue).resp.status
      = 400 :=
  ⟨by decide,
   (C2_falsy_required_fields_reject_before_side_effects envOkOk
      { okReq with jobName := .undef } emptyStore emptyQueue rfl (Or.inl rfl)).1⟩

/-- Claim C3: when the store insert fails, the handler answers 500 with the
persistence error message, makes no publish attempt at all, and leaves the
store and queue unchanged. -/
theorem C3_insert_failure_no_publish
    (env : Env) (req : SubmitRequest) (st : Store) (q : Queue)
    (hm : req.method = "POST")
    (h1 : req.jobName.truthy = true) (h2 : req.modelType.truthy = true)
    (h3 : req.trainingSteps.truthy = true)
    (hins : env.insertOk = false) :
    (submitHandler env req st q).resp.status = 500 ∧
    (submitHandler env req st q).resp.error = some "Failed to submit job" ∧
    publishCount (submitHandler env req st q).trace = 0 ∧
    (submitHandler env req st q).queue = q ∧
    (submitHandler env req st q).store = st := by
  simp [submitHandler, hm, h1, h2, h3, hins, publishCount, List.countP, List.countP.go]

/-- Claim C3 witness: the theorem applied at a concrete request with a
failing store. -/
theorem C3_insert_failure_no_publish_witness :
    (okReq.method = "POST" ∧ okReq.jobName.truthy = true ∧
     okReq.modelType.truthy = true ∧ okReq.trainingSteps.truthy = true ∧
     envFailOk.insertOk = false) ∧
    publishCount (submitHandler envFailOk okReq emptyStore emptyQueue).trace = 0 :=
  ⟨by decide,
   (C3_insert_failure_no_publish envFailOk okReq emptyStore emptyQueue
      rfl (by decide) (by decide) (by decide) rfl).2.2.1⟩

/-- Claim C4: the code rejects `trainingSteps = 0` as a missing required
field.  The request `zeroStepsReq` has name and model type present and
`training_steps` equal to the non-negative number 0, yet the handler answers
400 `Missing required fields` with no persistence attempt, because
`!trainingSteps` in `submit.ts` treats the number 0 as falsy. -/
theorem C4_zero_training_steps_rejected_as_missing :
    zeroStepsReq.jobName.truthy = true ∧ zeroStepsReq.modelType.truthy = true ∧
    zeroStepsReq.trainingSteps = .num 0 ∧
    (submitHandler envOkOk zeroStepsReq emptyStore emptyQueue).resp.status = 400 ∧
    (submitHandler envOkOk zeroStepsReq emptyStore emptyQueue).resp.error =
      some "Missing required fields" ∧
    (submitHandler envOkOk zeroStepsReq emptyStore emptyQueue).trace = [] ∧
    (submitHandler envOkOk zeroStepsReq emptyStore emptyQueue).store = emptyStore := by
  refine ⟨by decide, by decide, rfl, ?_, ?_, ?_, ?_⟩ <;>
    simp [submitHandler, zeroStepsReq, emptyStore, JSValue.truthy]

/-- Claim C5: on the fully successful path the returned job id, the id of
the stored row and the id of the published event coincide, and the event
carries the same name, model type, training steps, learning rate and
description as the stored row. -/
theorem C5_field_identity
    (env : Env) (req : SubmitRequest) (st : Store) (q : Queue)
    (hm : req.method = "POST")
    (h1 : req.jobName.truthy = true) (h2 : req.modelType.truthy = true)
    (h3 : req.trainingSteps.truthy = true)
    (hins : env.insertOk = true) (hpub : env.publishOk = true) :
    (submitHandler env req st q).resp.status = 200 ∧
    (submitHandler env req st q).resp.jobId = some env.nextId ∧
    (submitHandler env req st q).store.jobs = st.jobs ++ [newRow env req] ∧
    (submitHandler env req st q).queue.messages = q.messages ++ [newEvent env req] ∧
    (newRow env req).id = env.nextId ∧
    (newEvent env req).jobId = env.nextId ∧
    (newEvent env req).jobName = (newRow env req).name ∧
    (newEvent env req).modelType = (newRow env req).model_type ∧
    (newEvent env req).trainingSteps = (newRow env req).training_steps ∧
    (newEvent env req).learningRate = (newRow env req).learning_rate ∧
    (newEvent env req).description = (newRow env req).description := by
  simp [submitHandler, hm, h1, h2, h3, hins, hpub, newRow, newEvent]

/-- Claim C5 witness: the theorem applied at a concrete request on the
successful path. -/
theorem C5_field_identity_witness :
    (okReq.method = "POST" ∧ okReq.jobName.truthy = true ∧
     okReq.modelType.truthy = true ∧ okReq.trainingSteps.truthy = true ∧
     envOkOk.insertOk = true ∧ envOkOk.publishOk = true) ∧
    (submitHandler envOkOk okReq emptyStore emptyQueue).resp.jobId = some envOkOk.nextId :=
  ⟨by decide,
   (C5_field_identity envOkOk okReq emptyStore emptyQueue
      rfl (by decide) (by decide) (by decide) rfl rfl).2.1⟩

/-- Claim C6: in every execution of the submission handler — any method, any
body, any store, queue and fault pattern — every SQS publish attempt in the
trace comes strictly after a store insert that was acknowledged as
successful; no event is ever published for a job that is not durably
recorded. -/
theorem C6_write_before_publish
    (env : Env) (req : SubmitRequest) (st : Store) (q : Queue) :
    publishAfterAckedInsert false (submitHandler env req st q).trace = true := by
  unfold submitHandler
  split
  · rfl
  split
  · rfl
  dsimp only
  split
  · split <;> rfl
  · rfl

/-- Claim C8: submission is not idempotent.  Running the handler twice in
sequence with the identical request body (both runs fully successful)
appends two distinct rows with two distinct ids, returns those two distinct
ids to the two callers, and deduplicates nothing — the rows agree on every
user-supplied field and are nevertheless both stored. -/
theorem C8_submission_not_idempotent
    (env : Env) (req : SubmitRequest) (st : Store) (q : Queue)
    (hm : req.method = "POST")
    (h1 : req.jobName.truthy = true) (h2 : req.modelType.truthy = true)
    (h3 : req.trainingSteps.truthy = true)
    (hins : env.insertOk = true) (hpub : env.publishOk = true) :
    (submitHandler (submitHandler env req st q).env req
        (submitHandler env req st q).store
        (submitHandler env req st q).queue).store.jobs =
      st.jobs ++ [newRow env req, newRow (submitHandler env req st q).env req] ∧
    (newRow env req).id ≠ (newRow (submitHandler env req st q).env req).id ∧
    (submitHandler env req st q).resp.jobId = some (newRow env req).id ∧
    (submitHandler (submitHandler env req st q).env req
        (submitHandler env req st q).store
        (submitHandler env req st q).queue).resp.jobId =
      some (newRow (submitHandler env req st q).env req).id ∧
    (newRow env req).name = (newRow (submitHandler env req st q).env req).name ∧
    (newRow env req).training_steps =
      (newRow (submitHandler env req st q).env req).training_steps := by
  simp [submitHandler, hm, h1, h2, h3, hins, hpub, newRow]

/-- Claim C8 witness: the theorem applied at a concrete request submitted
twice on the successful path. -/
theorem C8_submission_not_idempotent_witness :
    (okReq.method = "POST" ∧ okReq.jobName.truthy = true ∧
     okReq.modelType.truthy = true ∧ okReq.trainingSteps.truthy = true ∧
     envOkOk.insertOk = true ∧ envOkOk.publishOk = true) ∧
    (newRow envOkOk okReq).id ≠ (newRow (submitHandler envOkOk okReq emptyStore emptyQueue).env okReq).id :=
  ⟨by decide,
   (C8_submission_not_idempotent envOkOk okReq emptyStore emptyQueue
      rfl (by decide) (by decide) (by decide) rfl rfl).2.1⟩

/-- Claim C9: the submission handler makes no `update_status` call and no
delete call in any execution, and its only possible store effect is the
append of the one new row: the store is left either unchanged or extended
by exactly `newRow env req`, so every pre-existing record survives
untouched. -/
theorem C9_no_update_status_no_mutation
    (env : Env) (req : SubmitRequest) (st : Store) (q : Queue) :
    updateStatusCount (submitHandler env req st q).trace = 0 ∧
    deleteCount (submitHandler env req st q).trace = 0 ∧
    ((submitHandler env req st q).store.jobs = st.jobs ∨
     (submitHandler env req st q).store.jobs = st.jobs ++ [newRow env req]) := by
  unfold submitHandler
  split
  · exact ⟨rfl, rfl, Or.inl rfl⟩
  split
  · exact ⟨rfl, rfl, Or.inl rfl⟩
  dsimp only
  split
  · split
    · exact ⟨rfl, rfl, Or.inr rfl⟩
    · exact ⟨rfl, rfl, Or.inr rfl⟩
  · exact ⟨rfl, rfl, Or.inl rfl⟩

/-- Claim C10: a non-POST request to the submission endpoint and a non-GET
request to the listing endpoint are both answered 405 `Method not allowed`,
and the submission handler touches neither the store nor the queue and
makes no external call at all. -/
theorem C10_method_guards
    (env : Env) (req : SubmitRequest) (st : Store) (q : Queue)
    (m : String) (st2 : Store) (fe ft : Bool)
    (hm : req.method ≠ "POST") (hg : m ≠ "GET") :
    (submitHandler env req st q).resp.status = 405 ∧
    (submitHandler env req st q).resp.error = some "Method not allowed" ∧
    (submitHandler env req st q).store = st ∧
    (submitHandler env req st q).queue = q ∧
    (submitHandler env req st q).trace = [] ∧
    jobsHandler m st2 fe ft =
      { status := 405, error := some "Method not allowed", data := none } := by
  refine ⟨?_, ?_, ?_, ?_, ?_, ?_⟩ <;> simp [submitHandler, jobsHandler, hm, hg]

/-- Claim C10 witness: the theorem applied at a GET to the submission
endpoint and a POST to the listing endpoint. -/
theorem C10_method_guards_witness :
    (({ okReq with method := "GET" } : SubmitRequest).method ≠ "POST" ∧
     ("POST" : String) ≠ "GET") ∧
    (submitHandler envOkOk { okReq with method := "GET" } emptyStore emptyQueue).resp.status
      = 405 :=
  ⟨by decide,
   (C10_method_guards envOkOk { okReq with method := "GET" } emptyStore emptyQueue
      "POST" emptyStore false false (by decide) (by decide)).1⟩

/-- The listing comparator is transitive. -/
theorem rowLE_trans : ∀ (a b c : JobRow), rowLE a b → rowLE b c → rowLE a c := by
  intro a b c
  simp only [rowLE, decide_eq_true_eq]
  omega

/-- The listing comparator is total. -/
theorem rowLE_total : ∀ (a b : JobRow), rowLE a b || rowLE b a := by
  intro a b
  simp only [rowLE, Bool.or_eq_true, decide_eq_true_eq]
  omega

/-- Helper for stability: a sublist of `m` whose elements all satisfy `p`
and which is at least as long as `m.filter p` is exactly `m.filter p`. -/
theorem eq_filter_of_sublist {α : Type} {p : α → Bool} :
    ∀ {c m : List α}, c.Sublist m → (∀ x ∈ c, p x = true) →
      (m.filter p).length ≤ c.length → c = m.filter p := by
  intro c m hs
  induction hs with
  | slnil =>
    intro _ _
    rfl
  | @cons l₁ l₂ a hsub ih =>
    intro hp hl
    cases hpa : p a with
    | true =>
      exfalso
      rw [List.filter_cons_of_pos hpa, List.length_cons] at hl
      have hc := ih hp (Nat.le_of_succ_le hl)
      rw [← hc] at hl
      omega
    | false =>
      rw [List.filter_cons_of_neg (by simp [hpa])] at hl ⊢
      exact ih hp hl
  | @cons₂ l₁ l₂ a hsub ih =>
    intro hp hl
    have hpa : p a = true := hp a (List.mem_cons_self a l₁)
    rw [List.filter_cons_of_pos hpa] at hl
    simp only [List.length_cons] at hl
    rw [List.filter_cons_of_pos hpa]
    have hc := ih (fun x hx => hp x (List.mem_cons_of_mem a hx)) (by omega)
    rw [hc]

/-- The listing is stable: for every timestamp, the rows carrying that
timestamp appear in the listing exactly in their insertion order. -/
theorem listJobs_stable (st : Store) (t : Nat) :
    (listJobs st).filter (fun r => decide (r.created_at = t)) =
      st.jobs.filter (fun r => decide (r.created_at = t)) := by
  have hsub : (st.jobs.filter (fun r => decide (r.created_at = t))).Sublist (listJobs st) := by
    apply List.sublist_mergeSort rowLE_trans rowLE_total
    · apply List.pairwise_of_forall_mem_list
      intro a ha b hb
      have ha' := List.of_mem_filter ha
      have hb' := List.of_mem_filter hb
      simp only [decide_eq_true_eq] at ha' hb'
      simp [rowLE, ha', hb']
    · exact List.filter_sublist st.jobs
  have hperm : ((listJobs st).filter (fun r => decide (r.created_at = t))).Perm
      (st.jobs.filter (fun r => decide (r.created_at = t))) :=
    (List.mergeSort_perm st.jobs rowLE).filter _
  exact (eq_filter_of_sublist hsub (fun x hx => List.of_mem_filter hx)
    (le_of_eq hperm.length_eq)).symm

/-- Claim C7: on a GET with a healthy store the listing endpoint answers 200
with the store's rows as reordered by the listing query — a permutation of
all rows, sorted by `created_at` descending, ties kept in insertion order —
and when the query fails (error result or thrown exception) the caller gets
a 500 with no data. -/
theorem C7_listing_ordered_and_failures_surface (st : Store) :
    jobsHandler "GET" st false false =
      { status := 200, error := none, data := some (listJobs st) } ∧
    (listJobs st).Perm st.jobs ∧
    (listJobs st).Pairwise (fun a b => b.created_at ≤ a.created_at) ∧
    (∀ t : Nat, (listJobs st).filter (fun r => decide (r.created_at = t)) =
      st.jobs.filter (fun r => decide (r.created_at = t))) ∧
    jobsHandler "GET" st true false =
      { status := 500, error := some "Failed to fetch jobs", data := none } ∧
    jobsHandler "GET" st false true =
      { status := 500, error := some "Internal server error", data := none } := by
  refine ⟨by simp [jobsHandler], List.mergeSort_perm st.jobs rowLE, ?_,
    fun t => listJobs_stable st t, by simp [jobsHandler], by simp [jobsHandler]⟩
  have hs := List.sorted_mergeSort rowLE_trans rowLE_total st.jobs
  exact hs.imp (by simp only [rowLE, decide_eq_true_eq]; exact fun h => h)

end Hproj
